import Mathlib

/-! ARGB control binding (`libs/gst/controller/gstcontrolbindingargb.c`)

A shallow embedding of the ARGB control binding: four optional control
sources (alpha, red, green, blue) are sampled, each sample is clamped to
`[0, 1]`, scaled to a byte and the four bytes are packed into one `guint`.

Modelling conventions

* `gdouble` is `GDouble`: not-a-number, or an exact rational number.  The
  rounding of IEEE arithmetic and the infinities are outside the model.
* `guint` and `GstClockTime` are natural numbers; the shifts of the packing
  are reduced modulo `2 ^ 32`.
* Converting a `gdouble` that is not-a-number or out of range to `guint` is
  undefined in C; the model takes the value such a conversion yields as the
  parameter `undef` of every function that converts.
* The target object is modelled by the log of the property writes it received.
-/

namespace ARGB

/-! ## Numbers -/

/-- A `gdouble` sample: not-a-number, or a number. -/
inductive GDouble where
  | nan
  | fin (q : ℚ)
  deriving DecidableEq

/-- The C library's `isnan`. -/
def isnan : GDouble → Bool
  | GDouble.nan => true
  | GDouble.fin _ => false

/-- The C comparison `x > y` on doubles: false when either side is not-a-number. -/
def GDouble.gt : GDouble → GDouble → Bool
  | GDouble.fin x, GDouble.fin y => decide (y < x)
  | _, _ => false

/-- The C comparison `x < y` on doubles: false when either side is not-a-number. -/
def GDouble.lt : GDouble → GDouble → Bool
  | GDouble.fin x, GDouble.fin y => decide (x < y)
  | _, _ => false

/-- The C product `x * y` on doubles: not-a-number when either side is. -/
def GDouble.mul : GDouble → GDouble → GDouble
  | GDouble.fin x, GDouble.fin y => GDouble.fin (x * y)
  | _, _ => GDouble.nan

/-- GLib's macro `CLAMP(x, low, high)`, which is
`((x) > (high)) ? (high) : (((x) < (low)) ? (low) : (x))`. -/
def CLAMP (x low high : GDouble) : GDouble :=
  if GDouble.gt x high then high else if GDouble.lt x low then low else x

/-- The C conversion `(guint) x` of a double: the fractional part is discarded
when the result fits 32 bits; otherwise (and for not-a-number) C leaves the
result undefined, and the model yields `undef`. -/
def to_guint (undef : Nat) : GDouble → Nat
  | GDouble.nan => undef % 2 ^ 32
  | GDouble.fin q =>
    if -1 < q ∧ q < 2 ^ 32 then Int.toNat (Rat.floor q) else undef % 2 ^ 32

/-- The byte of one channel, `(guint) (CLAMP (x, 0.0, 1.0) * 255)`. -/
def channel_byte (undef : Nat) (x : GDouble) : Nat :=
  to_guint undef (GDouble.mul (CLAMP x (GDouble.fin 0) (GDouble.fin 1)) (GDouble.fin 255))

/-- The packed word computed in `sync_values`, `get_value` and
`get_value_array`:
`(byte a << 24) | (byte r << 16) | (byte g << 8) | byte b` on `guint`. -/
def src_val (undef : Nat) (a r g b : GDouble) : Nat :=
  ((channel_byte undef a <<< 24) % 2 ^ 32) |||
    ((channel_byte undef r <<< 16) % 2 ^ 32) |||
    ((channel_byte undef g <<< 8) % 2 ^ 32) |||
    channel_byte undef b

/-! ## The object system -/

/-- Value types of a property; only `G_TYPE_UINT` is told apart. -/
inductive GType where
  | G_TYPE_UINT
  | other (id : Nat)
  deriving DecidableEq

/-- A property descriptor, reduced to its value type. -/
structure GParamSpec where
  value_type : GType
  deriving DecidableEq

/-- A `GValue`: zero-filled (unset), or holding a `guint`. -/
inductive GValue where
  | unset
  | uint (v : Nat)
  deriving DecidableEq

/-- GLib's `g_value_init (value, G_TYPE_UINT)`. -/
def g_value_init (_value : GValue) : GValue := GValue.uint 0

/-- GLib's `g_value_set_uint (value, v)`. -/
def g_value_set_uint (_value : GValue) (v : Nat) : GValue := GValue.uint v

/-- The target object: the properties of its class and the log of the
property writes it has received, oldest first. -/
structure GstObject where
  find_property : String → Option GParamSpec
  writes : List (String × GValue)

/-- GLib's `g_object_set_property (object, name, value)`: one more write. -/
def g_object_set_property (object : GstObject) (name : String) (value : GValue) : GstObject :=
  { object with writes := object.writes ++ [(name, value)] }

/-- Modelled from the spec: the Signal Provider capability of section 6 (the
control source, whose code is not part of this file).  `get_value timestamp`
is `none` when the call fails and the sample otherwise;
`get_value_array timestamp interval n_values` is `none` when the call fails
and otherwise the buffer it filled, as a function of the index. -/
structure GstControlSource where
  get_value : Nat → Option GDouble
  get_value_array : Nat → Nat → Nat → Option (Nat → GDouble)

/-- Modelled from the spec: `gst_control_source_get_value (self, timestamp,
&value)`: the result flag and the content of `value` after the call (left as
it was when the call fails). -/
def gst_control_source_get_value (self : GstControlSource) (timestamp : Nat)
    (value : GDouble) : Bool × GDouble :=
  match self.get_value timestamp with
  | some v => (true, v)
  | none => (false, value)

/-- Modelled from the spec: `gst_control_source_get_value_array (self,
timestamp, interval, n_values, values)`: the result flag and the content of
the buffer after the call (left as it was when the call fails). -/
def gst_control_source_get_value_array (self : GstControlSource)
    (timestamp interval n_values : Nat) (values : Nat → GDouble) : Bool × (Nat → GDouble) :=
  match self.get_value_array timestamp interval n_values with
  | some out => (true, out)
  | none => (false, values)

/-- Modelled from the spec: the sentinel of "a valid (non-sentinel) time
value", `GST_CLOCK_TIME_NONE`, the all-ones 64-bit word. -/
def GST_CLOCK_TIME_NONE : Nat := 2 ^ 64 - 1

/-- Modelled from the spec: `GST_CLOCK_TIME_IS_VALID (time)`, the time is not
the sentinel. -/
def GST_CLOCK_TIME_IS_VALID (time : Nat) : Bool := time != GST_CLOCK_TIME_NONE

/-! ## The binding -/

/-- The instance: the parent's `name` and `pspec`, the four control sources,
the value holder `cur_value` and `last_value`. -/
structure GstControlBindingARGB where
  name : String
  pspec : Option GParamSpec
  cs_a : Option GstControlSource
  cs_r : Option GstControlSource
  cs_g : Option GstControlSource
  cs_b : Option GstControlSource
  cur_value : GValue
  last_value : Nat

/-- The property ids of the enum: `PROP_0`. -/
def PROP_0 : Nat := 0
/-- Property id of `control-source-a`. -/
def PROP_CS_A : Nat := 1
/-- Property id of `control-source-r`. -/
def PROP_CS_R : Nat := 2
/-- Property id of `control-source-g`. -/
def PROP_CS_G : Nat := 3
/-- Property id of `control-source-b`. -/
def PROP_CS_B : Nat := 4
/-- The end of the enum. -/
def PROP_LAST : Nat := 5

/-- The instance right after `gst_control_binding_argb_init`, which is empty:
the memory of a new instance is zero-filled, and the parent has stored the
name and looked the property up. -/
def gst_control_binding_argb_init (name : String) (pspec : Option GParamSpec) :
    GstControlBindingARGB :=
  { name := name, pspec := pspec, cs_a := none, cs_r := none, cs_g := none, cs_b := none,
    cur_value := GValue.unset, last_value := 0 }

/-- The type check of `gst_control_binding_argb_constructor`, applied to the
instance the parent's constructor returned. -/
def gst_control_binding_argb_constructor (self : GstControlBindingARGB) :
    GstControlBindingARGB :=
  match self.pspec with
  | some pspec =>
    if !(pspec.value_type == GType.G_TYPE_UINT) then
      { self with pspec := none }
    else
      { self with cur_value := g_value_init self.cur_value }
  | none => self

/-- The setter `gst_control_binding_argb_set_property`; `value` is the object
held by the `GValue` (`g_value_get_object`). -/
def gst_control_binding_argb_set_property (self : GstControlBindingARGB) (prop_id : Nat)
    (value : Option GstControlSource) : GstControlBindingARGB :=
  if prop_id = PROP_CS_A then { self with cs_a := value }
  else if prop_id = PROP_CS_R then { self with cs_r := value }
  else if prop_id = PROP_CS_G then { self with cs_r := value }
  else if prop_id = PROP_CS_B then { self with cs_g := value }
  else self

/-- The getter `gst_control_binding_argb_get_property`; the result is the
object held by `value` after the call (`g_value_set_object`). -/
def gst_control_binding_argb_get_property (self : GstControlBindingARGB) (prop_id : Nat)
    (value : Option GstControlSource) : Option GstControlSource :=
  if prop_id = PROP_CS_A then self.cs_a
  else if prop_id = PROP_CS_R then self.cs_r
  else if prop_id = PROP_CS_G then self.cs_g
  else if prop_id = PROP_CS_B then self.cs_b
  else value

/-- The factory `gst_control_binding_argb_new`: `g_object_new` creates the
instance, sets the construct properties in the order they are listed
(`control-source-a`, `-r`, `-g`, `-b`), and the constructor checks the type of
the property the parent found on `object`. -/
def gst_control_binding_argb_new (object : GstObject) (property_name : String)
    (cs_a cs_r cs_g cs_b : Option GstControlSource) : GstControlBindingARGB :=
  let self := gst_control_binding_argb_init property_name (object.find_property property_name)
  let self := gst_control_binding_argb_set_property self PROP_CS_A cs_a
  let self := gst_control_binding_argb_set_property self PROP_CS_R cs_r
  let self := gst_control_binding_argb_set_property self PROP_CS_G cs_g
  let self := gst_control_binding_argb_set_property self PROP_CS_B cs_b
  gst_control_binding_argb_constructor self

/-- One line `if (self->cs_x) ret &= gst_control_source_get_value (self->cs_x,
timestamp, &src_val_x);`: the flag this channel contributes to `ret` and the
content of `src_val_x` afterwards. -/
def channel_get_value (cs : Option GstControlSource) (timestamp : Nat) (src_val_x : GDouble) :
    Bool × GDouble :=
  match cs with
  | some c => gst_control_source_get_value c timestamp src_val_x
  | none => (true, src_val_x)

/-- The vmethod `gst_control_binding_argb_sync_values`: the returned flag, the
instance and the target object after the call. -/
def gst_control_binding_argb_sync_values (undef : Nat) (self : GstControlBindingARGB)
    (object : GstObject) (timestamp last_sync : Nat) :
    Bool × GstControlBindingARGB × GstObject :=
  if self.pspec.isNone then (false, self, object)
  else
    let a := channel_get_value self.cs_a timestamp (GDouble.fin 1)
    let r := channel_get_value self.cs_r timestamp (GDouble.fin 0)
    let g := channel_get_value self.cs_g timestamp (GDouble.fin 0)
    let b := channel_get_value self.cs_b timestamp (GDouble.fin 0)
    let ret := (((true && a.1) && r.1) && g.1) && b.1
    if ret then
      let v := src_val undef a.2 r.2 g.2 b.2
      if timestamp < last_sync ∨ v ≠ self.last_value then
        let dst_val := g_value_set_uint self.cur_value v
        (ret, { self with cur_value := dst_val, last_value := v },
          g_object_set_property object self.name dst_val)
      else (ret, self, object)
    else (ret, self, object)

/-- The vmethod `gst_control_binding_argb_get_value`: `none` is `NULL`,
`some v` a new `GValue` holding the `guint` `v`. -/
def gst_control_binding_argb_get_value (undef : Nat) (self : GstControlBindingARGB)
    (timestamp : Nat) : Option Nat :=
  if !GST_CLOCK_TIME_IS_VALID timestamp then none
  else if self.pspec.isNone then none
  else
    let a := channel_get_value self.cs_a timestamp (GDouble.fin 1)
    let r := channel_get_value self.cs_r timestamp (GDouble.fin 0)
    let g := channel_get_value self.cs_g timestamp (GDouble.fin 0)
    let b := channel_get_value self.cs_b timestamp (GDouble.fin 0)
    let ret := (((true && a.1) && r.1) && g.1) && b.1
    if ret then some (src_val undef a.2 r.2 g.2 b.2) else none

/-- One block `if (self->cs_x) { src_val_x = g_new0 (gdouble, n_values);
ret &= gst_control_source_get_value_array (...); }`: the flag this channel
contributes to `ret` and the buffer `src_val_x` afterwards (`none` is `NULL`). -/
def channel_get_value_array (cs : Option GstControlSource)
    (timestamp interval n_values : Nat) : Bool × Option (Nat → GDouble) :=
  match cs with
  | some c =>
    let buf := gst_control_source_get_value_array c timestamp interval n_values
      (fun _ => GDouble.fin 0)
    (buf.1, some buf.2)
  | none => (true, none)

/-- One line `if (src_val_x && !isnan (src_val_x[i])) x = src_val_x[i];` of the
loop, with `x` initialised to its default. -/
def array_sample (src_val_x : Option (Nat → GDouble)) (i : Nat) (x : GDouble) : GDouble :=
  match src_val_x with
  | some buf => if !isnan (buf i) then buf i else x
  | none => x

/-- The body of the loop of `get_value_array` at index `i`: `values[i]` is
initialised and set to the packed word. -/
def get_value_array_step (undef : Nat)
    (src_val_a src_val_r src_val_g src_val_b : Option (Nat → GDouble))
    (values : Nat → GValue) (i : Nat) : Nat → GValue :=
  let a := array_sample src_val_a i (GDouble.fin 1)
  let r := array_sample src_val_r i (GDouble.fin 0)
  let g := array_sample src_val_g i (GDouble.fin 0)
  let b := array_sample src_val_b i (GDouble.fin 0)
  Function.update values i (g_value_set_uint (g_value_init (values i)) (src_val undef a r g b))

/-- The vmethod `gst_control_binding_argb_get_value_array`: the returned flag
and the caller's array `values` after the call (`none` is a `NULL` array).
The loop runs `i` over `0 .. n_values - 1`. -/
def gst_control_binding_argb_get_value_array (undef : Nat) (self : GstControlBindingARGB)
    (timestamp interval n_values : Nat) (values : Option (Nat → GValue)) :
    Bool × Option (Nat → GValue) :=
  if !GST_CLOCK_TIME_IS_VALID timestamp then (false, values)
  else if !GST_CLOCK_TIME_IS_VALID interval then (false, values)
  else
    match values with
    | none => (false, none)
    | some vals =>
      if self.pspec.isNone then (false, some vals)
      else
        let a := channel_get_value_array self.cs_a timestamp interval n_values
        let r := channel_get_value_array self.cs_r timestamp interval n_values
        let g := channel_get_value_array self.cs_g timestamp interval n_values
        let b := channel_get_value_array self.cs_b timestamp interval n_values
        let ret := (((true && a.1) && r.1) && g.1) && b.1
        if ret then
          (ret, some ((List.range n_values).foldl
            (get_value_array_step undef a.2 r.2 g.2 b.2) vals))
        else (ret, some vals)

/-! ## Notions of the specification -/

/-- The spec's quantisation of a sample, `floor (clamp (x, 0, 1) * 255)`. -/
def quantize (x : ℚ) : Nat := Int.toNat ⌊max 0 (min x 1) * 255⌋

/-- The spec's packed layout: alpha in bits 31-24, red in 23-16, green in 15-8,
blue in 7-0. -/
def pack (a r g b : Nat) : Nat := (a <<< 24) ||| (r <<< 16) ||| (g <<< 8) ||| b

/-- A channel slot does not fail at `timestamp`: it is absent, or its provider
returns a sample. -/
def channel_ok (cs : Option GstControlSource) (timestamp : Nat) : Bool :=
  match cs with
  | some c => (c.get_value timestamp).isSome
  | none => true

/-- Every present channel's provider succeeds at `timestamp`. -/
def channels_ok (self : GstControlBindingARGB) (timestamp : Nat) : Bool :=
  channel_ok self.cs_a timestamp && channel_ok self.cs_r timestamp &&
    channel_ok self.cs_g timestamp && channel_ok self.cs_b timestamp

/-- The sample of a channel slot at `timestamp`: the provider's sample when the
slot is present (and the provider succeeds), the default otherwise. -/
def channel_sample (cs : Option GstControlSource) (timestamp : Nat) (dflt : GDouble) :
    GDouble :=
  match cs with
  | some c => (c.get_value timestamp).getD dflt
  | none => dflt

/-- The packed value of the binding at `timestamp`: the four channel samples
(defaults alpha 1.0, red, green, blue 0.0), each turned into its byte, packed. -/
def packed_value (undef : Nat) (self : GstControlBindingARGB) (timestamp : Nat) : Nat :=
  src_val undef (channel_sample self.cs_a timestamp (GDouble.fin 1))
    (channel_sample self.cs_r timestamp (GDouble.fin 0))
    (channel_sample self.cs_g timestamp (GDouble.fin 0))
    (channel_sample self.cs_b timestamp (GDouble.fin 0))

/-- The number `x` is the sample the spec attributes to a slot at `timestamp`:
the provider's (non-NaN) sample for a present slot, the default `dflt` for an
absent one. -/
def slot_sample (cs : Option GstControlSource) (timestamp : Nat) (dflt x : ℚ) : Prop :=
  match cs with
  | some c => c.get_value timestamp = some (GDouble.fin x)
  | none => x = dflt

/-- A channel slot's batch call does not fail: the slot is absent, or its
provider's batch call returns a buffer. -/
def batch_ok (cs : Option GstControlSource) (timestamp interval n_values : Nat) : Bool :=
  match cs with
  | some c => (c.get_value_array timestamp interval n_values).isSome
  | none => true

/-- Every present channel's batch call succeeds. -/
def batches_ok (self : GstControlBindingARGB) (timestamp interval n_values : Nat) : Bool :=
  batch_ok self.cs_a timestamp interval n_values &&
    batch_ok self.cs_r timestamp interval n_values &&
    batch_ok self.cs_g timestamp interval n_values &&
    batch_ok self.cs_b timestamp interval n_values

/-- The byte the spec attributes to a batch sample: the quantised sample, or the
quantised default `dflt` of the channel when the sample is not-a-number. -/
def sample_byte (x : GDouble) (dflt : ℚ) : Nat :=
  match x with
  | GDouble.nan => quantize dflt
  | GDouble.fin q => quantize q

/-- The function `buf` gives the batch samples of a slot: the buffer returned by
the provider's batch call for a present slot, the constant default `dflt` for an
absent one. -/
def batch_buffer (cs : Option GstControlSource) (timestamp interval n_values : Nat)
    (dflt : ℚ) (buf : Nat → GDouble) : Prop :=
  match cs with
  | some c => c.get_value_array timestamp interval n_values = some buf
  | none => buf = fun _ => GDouble.fin dflt

/-- The numbers `x 0 .. x (n_values - 1)` are the batch samples the spec
attributes to a slot: the entries of the buffer returned by the provider's batch
call for a present slot, the default `dflt` for an absent one. -/
def batch_samples (cs : Option GstControlSource) (timestamp interval n_values : Nat)
    (dflt : ℚ) (x : Nat → ℚ) : Prop :=
  match cs with
  | some c => ∃ buf, c.get_value_array timestamp interval n_values = some buf ∧
      ∀ j, j < n_values → buf j = GDouble.fin (x j)
  | none => ∀ j, j < n_values → x j = dflt

/-- The packing expression the three vmethods share, on four `guint` operands:
`(a << 24) | (r << 16) | (g << 8) | b`, each shift reduced to 32 bits. -/
def pack_guint (a r g b : Nat) : Nat :=
  ((a <<< 24) % 2 ^ 32) ||| ((r <<< 16) % 2 ^ 32) ||| ((g <<< 8) % 2 ^ 32) ||| b

/-- Bits `lo + 7 .. lo` of the word `w`. -/
def byte_at (w lo : Nat) : Nat := (w >>> lo) % 256

/-- A call of one of the three vmethods of the binding, with its arguments. -/
inductive Call where
  | sync_values (timestamp last_sync : Nat)
  | get_value (timestamp : Nat)
  | get_value_array (timestamp interval n_values : Nat) (values : Option (Nat → GValue))

/-- The instance and the target object after one call.  `sync_values` yields the
pair it leaves; `get_value` and `get_value_array` assign no field of the instance
and never call `g_object_set_property`, so the pair is as it was. -/
def call_step (undef : Nat) (s : GstControlBindingARGB × GstObject) :
    Call → GstControlBindingARGB × GstObject
  | Call.sync_values timestamp last_sync =>
    (gst_control_binding_argb_sync_values undef s.1 s.2 timestamp last_sync).2
  | Call.get_value _ => s
  | Call.get_value_array _ _ _ _ => s

/-- The instance and the target object after a sequence of calls. -/
def run_calls (undef : Nat) (s : GstControlBindingARGB × GstObject) (calls : List Call) :
    GstControlBindingARGB × GstObject :=
  calls.foldl (call_step undef) s

/-- The `guint` of the last write of a log of property writes, `0` for an empty log. -/
def last_written (ws : List (String × GValue)) : Nat :=
  match ws.getLast? with
  | some (_, GValue.uint v) => v
  | _ => 0

/-! ## Fixtures for the concrete instances -/

/-- A provider that returns the sample `x` at every time. -/
def const_source (x : GDouble) : GstControlSource :=
  { get_value := fun _ => some x, get_value_array := fun _ _ _ => some (fun _ => x) }

/-- A provider whose calls all fail. -/
def failing_source : GstControlSource :=
  { get_value := fun _ => none, get_value_array := fun _ _ _ => none }

/-- A target object whose properties are all `guint` properties, not written yet. -/
def uint_object : GstObject :=
  { find_property := fun _ => some { value_type := GType.G_TYPE_UINT }, writes := [] }

/-- A binding to the `guint` property `color` with the given channel slots and
`last_value`. -/
def color_binding (cs_a cs_r cs_g cs_b : Option GstControlSource) (last_value : Nat) :
    GstControlBindingARGB :=
  { name := "color", pspec := some { value_type := GType.G_TYPE_UINT },
    cs_a := cs_a, cs_r := cs_r, cs_g := cs_g, cs_b := cs_b,
    cur_value := GValue.uint 0, last_value := last_value }

/-- A target object whose properties all have a value type other than `guint`,
not written yet. -/
def float_object : GstObject :=
  { find_property := fun _ => some { value_type := GType.other 0 }, writes := [] }

/-- A provider whose batch buffer holds not-a-number at index `1` and `x`
elsewhere, and whose point sample is `x`. -/
def nan_at_one_source (x : GDouble) : GstControlSource :=
  { get_value := fun _ => some x,
    get_value_array := fun _ _ _ => some (fun i => if i = 1 then GDouble.nan else x) }

/-- The binding `gst_control_binding_argb_new (object, "color", cs_a, NULL, NULL,
NULL)` on a `guint` property, with an alpha provider of constant sample `0.0`. -/
def zero_alpha_binding : GstControlBindingARGB :=
  gst_control_binding_argb_new uint_object "color" (some (const_source (GDouble.fin 0)))
    none none none

/-- A binding to the `guint` property `color` whose only provider, in the alpha
slot, succeeds with a not-a-number sample. -/
def nan_alpha_binding : GstControlBindingARGB :=
  color_binding (some (const_source GDouble.nan)) none none none 0

/-- A binding to the `guint` property `color` whose only provider, in the red
slot, succeeds with a not-a-number sample. -/
def nan_red_binding : GstControlBindingARGB :=
  color_binding none (some (const_source GDouble.nan)) none none 0

/-! ## Lemmas on the numbers -/

theorem clamp_fin (q : ℚ) :
    CLAMP (GDouble.fin q) (GDouble.fin 0) (GDouble.fin 1) = GDouble.fin (max 0 (min q 1)) := by
  unfold CLAMP GDouble.gt GDouble.lt
  by_cases h1 : 1 < q
  · simp [h1, min_eq_right h1.le]
  · have h1' : q ≤ 1 := not_lt.mp h1
    by_cases h0 : q < 0
    · simp [h1, h0, min_eq_left h1', max_eq_left h0.le]
    · have h0' : 0 ≤ q := not_lt.mp h0
      simp [h1, h0, min_eq_left h1', max_eq_right h0']

theorem channel_byte_fin (undef : Nat) (q : ℚ) :
    channel_byte undef (GDouble.fin q) = quantize q := by
  have hlo : (0 : ℚ) ≤ max 0 (min q 1) := le_max_left _ _
  have hhi : max 0 (min q 1) ≤ (1 : ℚ) := max_le (by norm_num) (min_le_right _ _)
  unfold channel_byte quantize
  rw [clamp_fin]
  simp only [GDouble.mul, to_guint]
  have hg : (-1 : ℚ) < max 0 (min q 1) * 255 ∧ max 0 (min q 1) * 255 < 2 ^ 32 := by
    constructor
    · nlinarith
    · nlinarith
  rw [if_pos hg]
  rfl

theorem quantize_le (q : ℚ) : quantize q ≤ 255 := by
  have hhi : max 0 (min q 1) ≤ (1 : ℚ) := max_le (by norm_num) (min_le_right _ _)
  unfold quantize
  have h : ⌊max 0 (min q 1) * 255⌋ ≤ 255 := by
    have : max 0 (min q 1) * 255 ≤ ((255 : ℤ) : ℚ) := by push_cast; nlinarith
    exact (Int.floor_le_floor this).trans (by simp)
  omega

theorem quantize_one : quantize 1 = 255 := by
  unfold quantize; norm_num; rfl

theorem quantize_zero : quantize 0 = 0 := by
  unfold quantize; norm_num

theorem quantize_half : quantize (1 / 2) = 127 := by
  unfold quantize
  have h : ⌊max (0 : ℚ) (min (1 / 2) 1) * 255⌋ = 127 := by
    rw [Int.floor_eq_iff]; norm_num
  rw [h]; rfl

theorem shift_mod (x k : Nat) (hx : x ≤ 255) (hk : k ≤ 24) :
    (x <<< k) % 2 ^ 32 = x <<< k := by
  apply Nat.mod_eq_of_lt
  rw [Nat.shiftLeft_eq]
  calc x * 2 ^ k ≤ 255 * 2 ^ 24 :=
        Nat.mul_le_mul hx (Nat.pow_le_pow_right (by norm_num) hk)
    _ < 2 ^ 32 := by norm_num

theorem src_val_fin (undef : Nat) (a r g b : ℚ) :
    src_val undef (GDouble.fin a) (GDouble.fin r) (GDouble.fin g) (GDouble.fin b) =
      pack (quantize a) (quantize r) (quantize g) (quantize b) := by
  unfold src_val pack
  simp only [channel_byte_fin]
  rw [shift_mod _ 24 (quantize_le a) (le_refl _), shift_mod _ 16 (quantize_le r) (by norm_num),
    shift_mod _ 8 (quantize_le g) (by norm_num)]

theorem src_val_default (undef : Nat) :
    src_val undef (GDouble.fin 1) (GDouble.fin 0) (GDouble.fin 0) (GDouble.fin 0) =
      0xFF000000 := by
  rw [src_val_fin, quantize_one, quantize_zero]; rfl

/-! ## Lemmas on the operations -/

theorem channel_get_value_fst (cs : Option GstControlSource) (timestamp : Nat) (d : GDouble) :
    (channel_get_value cs timestamp d).1 = channel_ok cs timestamp := by
  cases cs with
  | none => rfl
  | some c =>
    simp only [channel_get_value, gst_control_source_get_value, channel_ok]
    cases c.get_value timestamp <;> rfl

theorem channel_get_value_snd (cs : Option GstControlSource) (timestamp : Nat) (d : GDouble) :
    (channel_get_value cs timestamp d).2 = channel_sample cs timestamp d := by
  cases cs with
  | none => rfl
  | some c =>
    simp only [channel_get_value, gst_control_source_get_value, channel_sample]
    cases c.get_value timestamp <;> rfl

theorem sync_values_eq (undef : Nat) (self : GstControlBindingARGB) (object : GstObject)
    (timestamp last_sync : Nat) (hp : self.pspec.isSome = true) :
    gst_control_binding_argb_sync_values undef self object timestamp last_sync =
      if channels_ok self timestamp = true then
        if timestamp < last_sync ∨ packed_value undef self timestamp ≠ self.last_value then
          (true,
            { self with
              cur_value := GValue.uint (packed_value undef self timestamp),
              last_value := packed_value undef self timestamp },
            g_object_set_property object self.name
              (GValue.uint (packed_value undef self timestamp)))
        else (true, self, object)
      else (false, self, object) := by
  have hn : self.pspec.isNone = false := by
    cases h : self.pspec with
    | none => rw [h] at hp; exact absurd hp (by decide)
    | some _ => rfl
  unfold gst_control_binding_argb_sync_values
  simp only [hn, channel_get_value_fst, channel_get_value_snd, Bool.true_and]
  by_cases hok : channels_ok self timestamp = true
  · have hok' := hok
    unfold channels_ok at hok'
    simp only [hok, hok', if_true]
    rfl
  · have hok' := hok
    unfold channels_ok at hok'
    simp only [hok, hok', if_false]
    simp

theorem get_value_eq (undef : Nat) (self : GstControlBindingARGB) (timestamp : Nat)
    (ht : GST_CLOCK_TIME_IS_VALID timestamp = true) (hp : self.pspec.isSome = true) :
    gst_control_binding_argb_get_value undef self timestamp =
      if channels_ok self timestamp = true then some (packed_value undef self timestamp)
      else none := by
  have hn : self.pspec.isNone = false := by
    cases h : self.pspec with
    | none => rw [h] at hp; exact absurd hp (by decide)
    | some _ => rfl
  unfold gst_control_binding_argb_get_value
  simp only [hn, ht, channel_get_value_fst, channel_get_value_snd, Bool.true_and]
  by_cases hok : channels_ok self timestamp = true
  · have hok' := hok
    unfold channels_ok at hok'
    simp only [hok, hok', if_true]
    rfl
  · have hok' := hok
    unfold channels_ok at hok'
    simp only [hok, hok', if_false]
    simp

theorem channel_get_value_array_fst (cs : Option GstControlSource)
    (timestamp interval n_values : Nat) :
    (channel_get_value_array cs timestamp interval n_values).1 =
      batch_ok cs timestamp interval n_values := by
  cases cs with
  | none => rfl
  | some c =>
    simp only [channel_get_value_array, gst_control_source_get_value_array, batch_ok]
    cases c.get_value_array timestamp interval n_values <;> rfl

theorem batch_buffer_ok (cs : Option GstControlSource) (timestamp interval n_values : Nat)
    (dflt : ℚ) (buf : Nat → GDouble)
    (hb : batch_buffer cs timestamp interval n_values dflt buf) :
    batch_ok cs timestamp interval n_values = true := by
  cases cs with
  | none => rfl
  | some c =>
    simp only [batch_buffer] at hb
    simp only [batch_ok, hb, Option.isSome_some]

theorem sample_byte_le (x : GDouble) (dflt : ℚ) : sample_byte x dflt ≤ 255 := by
  cases x with
  | nan => exact quantize_le dflt
  | fin q => exact quantize_le q

theorem array_sample_byte (undef : Nat) (cs : Option GstControlSource)
    (timestamp interval n_values : Nat) (dflt : ℚ) (buf : Nat → GDouble)
    (hb : batch_buffer cs timestamp interval n_values dflt buf) (j : Nat) :
    channel_byte undef
        (array_sample (channel_get_value_array cs timestamp interval n_values).2 j
          (GDouble.fin dflt)) =
      sample_byte (buf j) dflt := by
  cases cs with
  | none =>
    simp only [batch_buffer] at hb
    subst hb
    simp only [channel_get_value_array, array_sample, channel_byte_fin, sample_byte]
  | some c =>
    simp only [batch_buffer] at hb
    simp only [channel_get_value_array, gst_control_source_get_value_array, hb, array_sample]
    cases hj : buf j with
    | nan => simp [isnan, channel_byte_fin, sample_byte]
    | fin q => simp [isnan, channel_byte_fin, sample_byte]

theorem pack_guint_eq (a r g b : Nat) (ha : a ≤ 255) (hr : r ≤ 255) (hg : g ≤ 255) :
    pack_guint a r g b = pack a r g b := by
  unfold pack_guint pack
  rw [shift_mod a 24 ha (le_refl _), shift_mod r 16 hr (by norm_num),
    shift_mod g 8 hg (by norm_num)]

theorem src_val_eq_pack_guint (undef : Nat) (a r g b : GDouble) :
    src_val undef a r g b =
      pack_guint (channel_byte undef a) (channel_byte undef r) (channel_byte undef g)
        (channel_byte undef b) := by
  unfold src_val pack_guint
  rfl

theorem foldl_update_range (c : Nat → GValue) (vals : Nat → GValue) (n : Nat) :
    (List.range n).foldl (fun values i => Function.update values i (c i)) vals =
      fun j => if j < n then c j else vals j := by
  induction n with
  | zero => simp
  | succ n ih =>
    rw [List.range_succ, List.foldl_append, ih]
    funext j
    simp only [List.foldl_cons, List.foldl_nil, Function.update_apply]
    by_cases h : j = n
    · subst h; simp
    · have h2 : j < n + 1 ↔ j < n := by omega
      simp [h, h2]

theorem get_value_array_failure (undef : Nat) (self : GstControlBindingARGB)
    (timestamp interval n_values : Nat) (values : Option (Nat → GValue))
    (hok : batches_ok self timestamp interval n_values = false) :
    gst_control_binding_argb_get_value_array undef self timestamp interval n_values values =
      (false, values) := by
  have hok' := hok
  unfold batches_ok at hok'
  unfold gst_control_binding_argb_get_value_array
  simp only [channel_get_value_array_fst, Bool.true_and, hok']
  cases values with
  | none => simp
  | some vals => simp

theorem get_value_array_success (undef : Nat) (self : GstControlBindingARGB)
    (timestamp interval n_values : Nat) (vals : Nat → GValue)
    (a r g b : Nat → GDouble)
    (ht : GST_CLOCK_TIME_IS_VALID timestamp = true)
    (hi : GST_CLOCK_TIME_IS_VALID interval = true)
    (hp : self.pspec.isSome = true)
    (ha : batch_buffer self.cs_a timestamp interval n_values 1 a)
    (hr : batch_buffer self.cs_r timestamp interval n_values 0 r)
    (hg : batch_buffer self.cs_g timestamp interval n_values 0 g)
    (hb : batch_buffer self.cs_b timestamp interval n_values 0 b) :
    gst_control_binding_argb_get_value_array undef self timestamp interval n_values
        (some vals) =
      (true, some (fun j =>
        if j < n_values then
          GValue.uint (pack (sample_byte (a j) 1) (sample_byte (r j) 0)
            (sample_byte (g j) 0) (sample_byte (b j) 0))
        else vals j)) := by
  have hn : self.pspec.isNone = false := by
    cases h : self.pspec with
    | none => rw [h] at hp; exact absurd hp (by decide)
    | some _ => rfl
  have hstep : get_value_array_step undef
      (channel_get_value_array self.cs_a timestamp interval n_values).2
      (channel_get_value_array self.cs_r timestamp interval n_values).2
      (channel_get_value_array self.cs_g timestamp interval n_values).2
      (channel_get_value_array self.cs_b timestamp interval n_values).2 =
      fun values i => Function.update values i
        (GValue.uint (pack (sample_byte (a i) 1) (sample_byte (r i) 0)
          (sample_byte (g i) 0) (sample_byte (b i) 0))) := by
    funext values i
    unfold get_value_array_step
    simp only [g_value_set_uint, src_val_eq_pack_guint,
      array_sample_byte undef _ _ _ _ 1 a ha, array_sample_byte undef _ _ _ _ 0 r hr,
      array_sample_byte undef _ _ _ _ 0 g hg, array_sample_byte undef _ _ _ _ 0 b hb]
    rw [pack_guint_eq _ _ _ _ (sample_byte_le _ _) (sample_byte_le _ _) (sample_byte_le _ _)]
  unfold gst_control_binding_argb_get_value_array
  simp only [hn, ht, hi, channel_get_value_array_fst, Bool.true_and,
    batch_buffer_ok _ _ _ _ _ _ ha, batch_buffer_ok _ _ _ _ _ _ hr,
    batch_buffer_ok _ _ _ _ _ _ hg, batch_buffer_ok _ _ _ _ _ _ hb, hstep,
    foldl_update_range]
  simp

theorem channels_ok_false (self : GstControlBindingARGB) (timestamp : Nat)
    (h : channel_ok self.cs_a timestamp = false ∨ channel_ok self.cs_r timestamp = false ∨
      channel_ok self.cs_g timestamp = false ∨ channel_ok self.cs_b timestamp = false) :
    channels_ok self timestamp = false := by
  unfold channels_ok
  rcases h with h | h | h | h <;> simp [h]

theorem batches_ok_false (self : GstControlBindingARGB) (timestamp interval n_values : Nat)
    (h : batch_ok self.cs_a timestamp interval n_values = false ∨
      batch_ok self.cs_r timestamp interval n_values = false ∨
      batch_ok self.cs_g timestamp interval n_values = false ∨
      batch_ok self.cs_b timestamp interval n_values = false) :
    batches_ok self timestamp interval n_values = false := by
  unfold batches_ok
  rcases h with h | h | h | h <;> simp [h]

theorem slot_sample_ok (cs : Option GstControlSource) (timestamp : Nat) (dflt x : ℚ)
    (h : slot_sample cs timestamp dflt x) :
    channel_ok cs timestamp = true ∧ channel_sample cs timestamp (GDouble.fin dflt) = GDouble.fin x := by
  cases cs with
  | none =>
    simp only [slot_sample] at h
    subst h
    exact ⟨rfl, rfl⟩
  | some c =>
    simp only [slot_sample] at h
    simp only [channel_ok, channel_sample, h, Option.isSome_some, Option.getD_some, and_self]

theorem get_value_of_samples (undef : Nat) (self : GstControlBindingARGB) (timestamp : Nat)
    (xa xr xg xb : ℚ)
    (ht : GST_CLOCK_TIME_IS_VALID timestamp = true) (hp : self.pspec.isSome = true)
    (ha : slot_sample self.cs_a timestamp 1 xa) (hr : slot_sample self.cs_r timestamp 0 xr)
    (hg : slot_sample self.cs_g timestamp 0 xg) (hb : slot_sample self.cs_b timestamp 0 xb) :
    gst_control_binding_argb_get_value undef self timestamp =
      some (pack (quantize xa) (quantize xr) (quantize xg) (quantize xb)) := by
  have h1 := slot_sample_ok _ _ _ _ ha
  have h2 := slot_sample_ok _ _ _ _ hr
  have h3 := slot_sample_ok _ _ _ _ hg
  have h4 := slot_sample_ok _ _ _ _ hb
  have hok : channels_ok self timestamp = true := by
    unfold channels_ok
    simp [h1.1, h2.1, h3.1, h4.1]
  rw [get_value_eq undef self timestamp ht hp, if_pos hok]
  unfold packed_value
  rw [h1.2, h2.2, h3.2, h4.2, src_val_fin]

theorem constructor_slots (self : GstControlBindingARGB) :
    (gst_control_binding_argb_constructor self).cs_a = self.cs_a ∧
    (gst_control_binding_argb_constructor self).cs_r = self.cs_r ∧
    (gst_control_binding_argb_constructor self).cs_g = self.cs_g ∧
    (gst_control_binding_argb_constructor self).cs_b = self.cs_b ∧
    (gst_control_binding_argb_constructor self).last_value = self.last_value ∧
    (gst_control_binding_argb_constructor self).name = self.name := by
  unfold gst_control_binding_argb_constructor
  cases self.pspec with
  | none => exact ⟨rfl, rfl, rfl, rfl, rfl, rfl⟩
  | some p =>
    by_cases hty : (!(p.value_type == GType.G_TYPE_UINT)) = true
    · dsimp only
      rw [if_pos hty]
      exact ⟨rfl, rfl, rfl, rfl, rfl, rfl⟩
    · dsimp only
      rw [if_neg hty]
      exact ⟨rfl, rfl, rfl, rfl, rfl, rfl⟩

theorem new_slots (object : GstObject) (property_name : String)
    (cs_a cs_r cs_g cs_b : Option GstControlSource) :
    (gst_control_binding_argb_new object property_name cs_a cs_r cs_g cs_b).cs_a = cs_a ∧
    (gst_control_binding_argb_new object property_name cs_a cs_r cs_g cs_b).cs_r = cs_g ∧
    (gst_control_binding_argb_new object property_name cs_a cs_r cs_g cs_b).cs_g = cs_b ∧
    (gst_control_binding_argb_new object property_name cs_a cs_r cs_g cs_b).cs_b = none := by
  unfold gst_control_binding_argb_new
  refine ⟨?_, ?_, ?_, ?_⟩
  · rw [(constructor_slots _).1]; rfl
  · rw [(constructor_slots _).2.1]; rfl
  · rw [(constructor_slots _).2.2.1]; rfl
  · rw [(constructor_slots _).2.2.2.1]; rfl

theorem sync_values_failure (undef : Nat) (self : GstControlBindingARGB) (object : GstObject)
    (timestamp last_sync : Nat) (hok : channels_ok self timestamp = false) :
    gst_control_binding_argb_sync_values undef self object timestamp last_sync =
      (false, self, object) := by
  have hok' := hok
  unfold channels_ok at hok'
  unfold gst_control_binding_argb_sync_values
  simp only [channel_get_value_fst, Bool.true_and, hok']
  cases self.pspec <;> simp

theorem batch_samples_buffer (cs : Option GstControlSource)
    (timestamp interval n_values : Nat) (dflt : ℚ) (x : Nat → ℚ)
    (h : batch_samples cs timestamp interval n_values dflt x) :
    ∃ buf, batch_buffer cs timestamp interval n_values dflt buf ∧
      ∀ j, j < n_values → sample_byte (buf j) dflt = quantize (x j) := by
  cases cs with
  | none =>
    simp only [batch_samples] at h
    refine ⟨fun _ => GDouble.fin dflt, rfl, ?_⟩
    intro j hj
    simp only [sample_byte, h j hj]
  | some c =>
    simp only [batch_samples] at h
    obtain ⟨buf, hbuf, hx⟩ := h
    refine ⟨buf, hbuf, ?_⟩
    intro j hj
    simp only [hx j hj, sample_byte]

theorem channel_byte_nan (undef : Nat) : channel_byte undef GDouble.nan = undef % 2 ^ 32 := rfl

theorem pack_guint_nan_alpha (u : Nat) (h : pack_guint u 0 0 0 = 0xFF000000) : u % 2 = 1 := by
  unfold pack_guint at h
  simp only [Nat.zero_shiftLeft, Nat.zero_mod, Nat.or_zero] at h
  rw [Nat.shiftLeft_eq] at h
  omega

theorem pack_guint_nan_red (u : Nat) (hu : u % 2 = 1) : pack_guint 255 u 0 0 ≠ 0xFF000000 := by
  intro h
  unfold pack_guint at h
  simp only [Nat.zero_shiftLeft, Nat.zero_mod, Nat.or_zero] at h
  have hb := congrArg (fun w => Nat.testBit w 16) h
  simp only [Nat.testBit_or, Nat.testBit_mod_two_pow, Nat.testBit_shiftLeft,
    Nat.testBit_zero] at hb
  simp [hu] at hb
  exact absurd hb (by decide)

theorem pack_guint_sum (a r g b : Nat) (ha : a ≤ 255) (hr : r ≤ 255) (hg : g ≤ 255)
    (hb : b ≤ 255) :
    pack_guint a r g b = a * 2 ^ 24 + r * 2 ^ 16 + g * 2 ^ 8 + b := by
  rw [pack_guint_eq a r g b ha hr hg]
  unfold pack
  simp only [Nat.shiftLeft_eq]
  have h1 : g * 2 ^ 8 ||| b = g * 2 ^ 8 + b := by
    rw [Nat.mul_comm g]
    exact (Nat.mul_add_lt_is_or (by omega : b < 2 ^ 8) g).symm
  have h2 : r * 2 ^ 16 ||| (g * 2 ^ 8 + b) = r * 2 ^ 16 + (g * 2 ^ 8 + b) := by
    rw [Nat.mul_comm r]
    exact (Nat.mul_add_lt_is_or (by omega : g * 2 ^ 8 + b < 2 ^ 16) r).symm
  have h3 : a * 2 ^ 24 ||| (r * 2 ^ 16 + (g * 2 ^ 8 + b)) =
      a * 2 ^ 24 + (r * 2 ^ 16 + (g * 2 ^ 8 + b)) := by
    rw [Nat.mul_comm a]
    exact (Nat.mul_add_lt_is_or (by omega : r * 2 ^ 16 + (g * 2 ^ 8 + b) < 2 ^ 24) a).symm
  rw [Nat.or_assoc, Nat.or_assoc, h1, h2, h3]
  omega

theorem sync_values_no_pspec (undef : Nat) (self : GstControlBindingARGB) (object : GstObject)
    (timestamp last_sync : Nat) (hp : self.pspec = none) :
    gst_control_binding_argb_sync_values undef self object timestamp last_sync =
      (false, self, object) := by
  unfold gst_control_binding_argb_sync_values
  rw [hp]
  rfl

theorem get_value_no_pspec (undef : Nat) (self : GstControlBindingARGB) (timestamp : Nat)
    (hp : self.pspec = none) :
    gst_control_binding_argb_get_value undef self timestamp = none := by
  unfold gst_control_binding_argb_get_value
  rw [hp]
  cases GST_CLOCK_TIME_IS_VALID timestamp <;> rfl

theorem get_value_array_no_pspec (undef : Nat) (self : GstControlBindingARGB)
    (timestamp interval n_values : Nat) (values : Option (Nat → GValue))
    (hp : self.pspec = none) :
    gst_control_binding_argb_get_value_array undef self timestamp interval n_values values =
      (false, values) := by
  unfold gst_control_binding_argb_get_value_array
  rw [hp]
  cases GST_CLOCK_TIME_IS_VALID timestamp <;> cases GST_CLOCK_TIME_IS_VALID interval <;>
    cases values <;> rfl

theorem new_pspec_incompatible (object : GstObject) (property_name : String)
    (cs_a cs_r cs_g cs_b : Option GstControlSource) (p : GParamSpec)
    (hfind : object.find_property property_name = some p)
    (hty : p.value_type ≠ GType.G_TYPE_UINT) :
    (gst_control_binding_argb_new object property_name cs_a cs_r cs_g cs_b).pspec = none := by
  have hne : (!(p.value_type == GType.G_TYPE_UINT)) = true := by
    simp [hty]
  unfold gst_control_binding_argb_new gst_control_binding_argb_constructor
  have hps : (gst_control_binding_argb_set_property
      (gst_control_binding_argb_set_property
        (gst_control_binding_argb_set_property
          (gst_control_binding_argb_set_property
            (gst_control_binding_argb_init property_name (object.find_property property_name))
            PROP_CS_A cs_a) PROP_CS_R cs_r) PROP_CS_G cs_g) PROP_CS_B cs_b).pspec = some p := by
    rw [hfind]
    rfl
  simp only [hps, hne, if_true]

theorem last_written_concat (ws : List (String × GValue)) (name : String) (v : Nat) :
    last_written (ws ++ [(name, GValue.uint v)]) = v := by
  unfold last_written
  simp

theorem sync_values_success_last_value (undef : Nat) (self : GstControlBindingARGB)
    (object : GstObject) (timestamp last_sync : Nat)
    (h : (gst_control_binding_argb_sync_values undef self object timestamp last_sync).1 = true) :
    (gst_control_binding_argb_sync_values undef self object timestamp last_sync).2.1.last_value =
      packed_value undef self timestamp := by
  cases hps : self.pspec with
  | none =>
    rw [sync_values_no_pspec undef self object timestamp last_sync hps] at h
    exact absurd h Bool.false_ne_true
  | some p =>
    have hp : self.pspec.isSome = true := by rw [hps]; rfl
    rw [sync_values_eq undef self object timestamp last_sync hp] at h ⊢
    by_cases hok : channels_ok self timestamp = true
    · rw [if_pos hok]
      by_cases hc : timestamp < last_sync ∨ packed_value undef self timestamp ≠ self.last_value
      · rw [if_pos hc]
      · rw [if_neg hc]
        exact (Classical.not_not.mp (fun hne => hc (Or.inr hne))).symm
    · rw [if_neg hok] at h
      exact absurd h Bool.false_ne_true

theorem call_step_invariant (undef : Nat) (base : List (String × GValue))
    (s : GstControlBindingARGB × GstObject) (call : Call)
    (h : ∃ ws, s.2.writes = base ++ ws ∧ s.1.last_value = last_written ws) :
    ∃ ws, (call_step undef s call).2.writes = base ++ ws ∧
      (call_step undef s call).1.last_value = last_written ws := by
  cases call with
  | get_value timestamp => exact h
  | get_value_array timestamp interval n_values values => exact h
  | sync_values timestamp last_sync =>
    obtain ⟨ws, hw, hl⟩ := h
    show ∃ ws,
      (gst_control_binding_argb_sync_values undef s.1 s.2 timestamp last_sync).2.2.writes =
        base ++ ws ∧
      (gst_control_binding_argb_sync_values undef s.1 s.2 timestamp last_sync).2.1.last_value =
        last_written ws
    cases hps : s.1.pspec with
    | none =>
      rw [sync_values_no_pspec undef s.1 s.2 timestamp last_sync hps]
      exact ⟨ws, hw, hl⟩
    | some p =>
      have hp : s.1.pspec.isSome = true := by rw [hps]; rfl
      rw [sync_values_eq undef s.1 s.2 timestamp last_sync hp]
      by_cases hok : channels_ok s.1 timestamp = true
      · rw [if_pos hok]
        by_cases hc : timestamp < last_sync ∨
            packed_value undef s.1 timestamp ≠ s.1.last_value
        · rw [if_pos hc]
          refine ⟨ws ++ [(s.1.name, GValue.uint (packed_value undef s.1 timestamp))], ?_, ?_⟩
          · show s.2.writes ++ _ = _
            rw [hw, List.append_assoc]
          · exact (last_written_concat ws _ _).symm
        · rw [if_neg hc]
          exact ⟨ws, hw, hl⟩
      · rw [if_neg hok]
        exact ⟨ws, hw, hl⟩

theorem run_calls_invariant (undef : Nat) (base : List (String × GValue)) (calls : List Call)
    (s : GstControlBindingARGB × GstObject)
    (h : ∃ ws, s.2.writes = base ++ ws ∧ s.1.last_value = last_written ws) :
    ∃ ws, (run_calls undef s calls).2.writes = base ++ ws ∧
      (run_calls undef s calls).1.last_value = last_written ws := by
  induction calls generalizing s with
  | nil => exact h
  | cons call rest ih =>
    show ∃ ws, (run_calls undef (call_step undef s call) rest).2.writes = base ++ ws ∧
      (run_calls undef (call_step undef s call) rest).1.last_value = last_written ws
    exact ih _ (call_step_invariant undef base s call h)

/-! ## The claims -/

/-- C1: publish policy of `sync_values`.  On a binding with a bound property,
when every present channel's provider succeeds at `timestamp`, the call appends
the write of the packed value to the target property exactly when
`timestamp < last_sync` or the packed value differs from `last_value`, and
leaves the target untouched exactly when neither holds; a call with
`timestamp < last_sync` writes whatever `last_value` is. -/
theorem sync_values_publish_policy (undef : Nat) (self : GstControlBindingARGB)
    (object : GstObject) (timestamp last_sync : Nat)
    (hp : self.pspec.isSome = true) (hok : channels_ok self timestamp = true) :
    ((gst_control_binding_argb_sync_values undef self object timestamp last_sync).2.2.writes =
        object.writes ++ [(self.name, GValue.uint (packed_value undef self timestamp))] ↔
      (timestamp < last_sync ∨ packed_value undef self timestamp ≠ self.last_value)) ∧
    ((gst_control_binding_argb_sync_values undef self object timestamp last_sync).2.2.writes =
        object.writes ↔
      ¬ (timestamp < last_sync ∨ packed_value undef self timestamp ≠ self.last_value)) ∧
    (timestamp < last_sync →
      (gst_control_binding_argb_sync_values undef self object timestamp last_sync).2.2.writes =
        object.writes ++ [(self.name, GValue.uint (packed_value undef self timestamp))]) := by
  rw [sync_values_eq undef self object timestamp last_sync hp, if_pos hok]
  by_cases hc : timestamp < last_sync ∨ packed_value undef self timestamp ≠ self.last_value
  · rw [if_pos hc]
    simp [hc, g_object_set_property]
  · rw [if_neg hc]
    have hlt : ¬ timestamp < last_sync := fun h => hc (Or.inl h)
    have heq : packed_value undef self timestamp = self.last_value :=
      Classical.not_not.mp (fun h => hc (Or.inr h))
    simp [hlt, heq]

/-- Instance of C1: the packed value `0xFF000000` equals `last_value`, and the
call at time `1` with `last_sync = 2` still writes it. -/
theorem sync_values_publish_policy_witness :
    packed_value 0 (color_binding none none none none 0xFF000000) 1 =
        (color_binding none none none none 0xFF000000).last_value ∧
      (gst_control_binding_argb_sync_values 0 (color_binding none none none none 0xFF000000)
          uint_object 1 2).2.2.writes =
        uint_object.writes ++
          [("color", GValue.uint
            (packed_value 0 (color_binding none none none none 0xFF000000) 1))] :=
  ⟨src_val_default 0,
    (sync_values_publish_policy 0 (color_binding none none none none 0xFF000000) uint_object
      1 2 rfl rfl).2.2 (by decide)⟩

/-- C2: packing of `get_value`.  At a valid timestamp, on a binding with a bound
property whose slots give the samples `xa`, `xr`, `xg`, `xb` (the provider's
number for a present slot, the default `1` for alpha and `0` for red, green and
blue for an absent one), `get_value` returns the word
`(qa << 24) | (qr << 16) | (qg << 8) | qb` with `q = floor (clamp (x, 0, 1) * 255)`. -/
theorem get_value_packing (undef : Nat) (self : GstControlBindingARGB) (timestamp : Nat)
    (xa xr xg xb : ℚ)
    (ht : GST_CLOCK_TIME_IS_VALID timestamp = true) (hp : self.pspec.isSome = true)
    (ha : slot_sample self.cs_a timestamp 1 xa) (hr : slot_sample self.cs_r timestamp 0 xr)
    (hg : slot_sample self.cs_g timestamp 0 xg) (hb : slot_sample self.cs_b timestamp 0 xb) :
    gst_control_binding_argb_get_value undef self timestamp =
      some (pack (quantize xa) (quantize xr) (quantize xg) (quantize xb)) :=
  get_value_of_samples undef self timestamp xa xr xg xb ht hp ha hr hg hb

/-- Instance of C2: only the red slot present, with sample `0.5` at time `100`,
gives `0xFF7F0000`. -/
theorem get_value_packing_witness :
    gst_control_binding_argb_get_value 0
        (color_binding none (some (const_source (GDouble.fin (1 / 2)))) none none 0) 100 =
      some 0xFF7F0000 := by
  have h := get_value_packing 0
    (color_binding none (some (const_source (GDouble.fin (1 / 2)))) none none 0) 100
    1 (1 / 2) 0 0 rfl rfl rfl rfl rfl rfl
  rw [quantize_one, quantize_half, quantize_zero] at h
  exact h

/-- C3: all-or-nothing `get_value`.  At a valid timestamp, on a binding with a
bound property: if the provider of at least one present channel fails, the
result is `NULL`, whatever the other channels return; if none fails, the result
is a value. -/
theorem get_value_all_or_nothing (undef : Nat) (self : GstControlBindingARGB)
    (timestamp : Nat)
    (ht : GST_CLOCK_TIME_IS_VALID timestamp = true) (hp : self.pspec.isSome = true) :
    ((channel_ok self.cs_a timestamp = false ∨ channel_ok self.cs_r timestamp = false ∨
        channel_ok self.cs_g timestamp = false ∨ channel_ok self.cs_b timestamp = false) →
      gst_control_binding_argb_get_value undef self timestamp = none) ∧
    ((channel_ok self.cs_a timestamp = true ∧ channel_ok self.cs_r timestamp = true ∧
        channel_ok self.cs_g timestamp = true ∧ channel_ok self.cs_b timestamp = true) →
      (gst_control_binding_argb_get_value undef self timestamp).isSome = true) := by
  rw [get_value_eq undef self timestamp ht hp]
  constructor
  · intro h
    rw [channels_ok_false self timestamp h]
    rfl
  · intro h
    have hok : channels_ok self timestamp = true := by
      unfold channels_ok
      simp [h.1, h.2.1, h.2.2.1, h.2.2.2]
    rw [if_pos hok]
    rfl

/-- Instance of C3: the alpha provider fails and the red provider succeeds;
`get_value` returns `NULL`. -/
theorem get_value_all_or_nothing_witness :
    gst_control_binding_argb_get_value 0
        (color_binding (some failing_source) (some (const_source (GDouble.fin 1))) none none 0)
        100 = none :=
  (get_value_all_or_nothing 0
    (color_binding (some failing_source) (some (const_source (GDouble.fin 1))) none none 0)
    100 rfl rfl).1 (Or.inl rfl)

/-- Counterexample to C4: the alpha slot's batch call fails and the red slot's
succeeds, for a valid start `0`, interval `10` and count `3`; the call reports
`FALSE` and the output array is as it was, no entry filled. -/
theorem get_value_array_degrade_counterexample :
    batch_ok (some failing_source) 0 10 3 = false ∧
      batch_ok (some (const_source (GDouble.fin (1 / 2)))) 0 10 3 = true ∧
      gst_control_binding_argb_get_value_array 0
          (color_binding (some failing_source) (some (const_source (GDouble.fin (1 / 2))))
            none none 0)
          0 10 3 (some (fun _ => GValue.unset)) =
        (false, some (fun _ => GValue.unset)) :=
  ⟨rfl, rfl, get_value_array_failure 0 _ 0 10 3 _ rfl⟩

/-- C4, amended: if the batch call of at least one present channel fails, then
`get_value_array` reports failure (`FALSE`) and leaves every output entry as it
was, whatever the batch calls of the other channels return. -/
theorem get_value_array_fails_on_any_batch_failure (undef : Nat)
    (self : GstControlBindingARGB) (timestamp interval n_values : Nat)
    (values : Option (Nat → GValue))
    (h : batch_ok self.cs_a timestamp interval n_values = false ∨
      batch_ok self.cs_r timestamp interval n_values = false ∨
      batch_ok self.cs_g timestamp interval n_values = false ∨
      batch_ok self.cs_b timestamp interval n_values = false) :
    gst_control_binding_argb_get_value_array undef self timestamp interval n_values values =
      (false, values) :=
  get_value_array_failure undef self timestamp interval n_values values
    (batches_ok_false self timestamp interval n_values h)

/-- Instance of C4, amended: the green slot's batch call fails and the blue
slot's succeeds; the call reports `FALSE` and the array is as it was. -/
theorem get_value_array_fails_on_any_batch_failure_witness :
    gst_control_binding_argb_get_value_array 0
        (color_binding none none (some failing_source) (some (const_source (GDouble.fin 1))) 0)
        5 10 2 (some (fun _ => GValue.uint 7)) =
      (false, some (fun _ => GValue.uint 7)) :=
  get_value_array_fails_on_any_batch_failure 0
    (color_binding none none (some failing_source) (some (const_source (GDouble.fin 1))) 0)
    5 10 2 (some (fun _ => GValue.uint 7)) (Or.inr (Or.inr (Or.inl rfl)))

/-- C5: channel wiring of `gst_control_binding_argb_new`.  The code stores the
alpha argument in slot A, but the green argument in slot R and the blue argument
in slot G; the red argument is dropped and slot B stays absent.  Reading back
`control-source-r`, `-g`, `-b` gives the green argument, the blue argument and
`NULL`. -/
theorem new_channel_wiring (object : GstObject) (property_name : String)
    (cs_a cs_r cs_g cs_b : Option GstControlSource) (value : Option GstControlSource) :
    (gst_control_binding_argb_new object property_name cs_a cs_r cs_g cs_b).cs_a = cs_a ∧
    (gst_control_binding_argb_new object property_name cs_a cs_r cs_g cs_b).cs_r = cs_g ∧
    (gst_control_binding_argb_new object property_name cs_a cs_r cs_g cs_b).cs_g = cs_b ∧
    (gst_control_binding_argb_new object property_name cs_a cs_r cs_g cs_b).cs_b = none ∧
    gst_control_binding_argb_get_property
      (gst_control_binding_argb_new object property_name cs_a cs_r cs_g cs_b)
      PROP_CS_R value = cs_g ∧
    gst_control_binding_argb_get_property
      (gst_control_binding_argb_new object property_name cs_a cs_r cs_g cs_b)
      PROP_CS_G value = cs_b ∧
    gst_control_binding_argb_get_property
      (gst_control_binding_argb_new object property_name cs_a cs_r cs_g cs_b)
      PROP_CS_B value = none := by
  have h := new_slots object property_name cs_a cs_r cs_g cs_b
  refine ⟨h.1, h.2.1, h.2.2.1, h.2.2.2, ?_, ?_, ?_⟩
  · show (gst_control_binding_argb_new object property_name cs_a cs_r cs_g cs_b).cs_r = cs_g
    exact h.2.1
  · show (gst_control_binding_argb_new object property_name cs_a cs_r cs_g cs_b).cs_g = cs_b
    exact h.2.2.1
  · show (gst_control_binding_argb_new object property_name cs_a cs_r cs_g cs_b).cs_b = none
    exact h.2.2.2

/-- C6: failure of `sync_values` is atomic.  If the provider of any present
channel fails at `timestamp`, the call returns `FALSE` and leaves the instance
(with its `last_value`) and the target object (no write) as they were. -/
theorem sync_values_failure_atomic (undef : Nat) (self : GstControlBindingARGB)
    (object : GstObject) (timestamp last_sync : Nat)
    (h : channel_ok self.cs_a timestamp = false ∨ channel_ok self.cs_r timestamp = false ∨
      channel_ok self.cs_g timestamp = false ∨ channel_ok self.cs_b timestamp = false) :
    gst_control_binding_argb_sync_values undef self object timestamp last_sync =
        (false, self, object) ∧
      (gst_control_binding_argb_sync_values undef self object timestamp last_sync).2.1.last_value =
        self.last_value ∧
      (gst_control_binding_argb_sync_values undef self object timestamp last_sync).2.2.writes =
        object.writes := by
  have hres := sync_values_failure undef self object timestamp last_sync
    (channels_ok_false self timestamp h)
  rw [hres]
  exact ⟨rfl, rfl, rfl⟩

/-- Instance of C6: the blue provider fails while the alpha provider succeeds,
at a time before `last_sync`; nothing is written and `last_value` stays `5`. -/
theorem sync_values_failure_atomic_witness :
    gst_control_binding_argb_sync_values 0
        (color_binding (some (const_source (GDouble.fin 1))) none none (some failing_source) 5)
        uint_object 1 2 =
      (false,
        color_binding (some (const_source (GDouble.fin 1))) none none (some failing_source) 5,
        uint_object) :=
  (sync_values_failure_atomic 0
    (color_binding (some (const_source (GDouble.fin 1))) none none (some failing_source) 5)
    uint_object 1 2 (Or.inr (Or.inr (Or.inr rfl)))).1

/-- C7: state update of `sync_values`.  On a binding with a bound property, when
every present channel succeeds, the call returns `TRUE`; if it publishes,
`last_value` and the stored current value become the packed value and the target
receives exactly that write; if the policy decides not to publish, the instance
and the target object are as they were. -/
theorem sync_values_state_update (undef : Nat) (self : GstControlBindingARGB)
    (object : GstObject) (timestamp last_sync : Nat)
    (hp : self.pspec.isSome = true) (hok : channels_ok self timestamp = true) :
    (gst_control_binding_argb_sync_values undef self object timestamp last_sync).1 = true ∧
    ((timestamp < last_sync ∨ packed_value undef self timestamp ≠ self.last_value) →
      (gst_control_binding_argb_sync_values undef self object timestamp last_sync).2.1.last_value =
          packed_value undef self timestamp ∧
        (gst_control_binding_argb_sync_values undef self object timestamp last_sync).2.1.cur_value =
          GValue.uint (packed_value undef self timestamp) ∧
        (gst_control_binding_argb_sync_values undef self object timestamp last_sync).2.2 =
          g_object_set_property object self.name
            (GValue.uint (packed_value undef self timestamp))) ∧
    (¬ (timestamp < last_sync ∨ packed_value undef self timestamp ≠ self.last_value) →
      (gst_control_binding_argb_sync_values undef self object timestamp last_sync).2.1 = self ∧
        (gst_control_binding_argb_sync_values undef self object timestamp last_sync).2.2 =
          object) := by
  rw [sync_values_eq undef self object timestamp last_sync hp, if_pos hok]
  by_cases hc : timestamp < last_sync ∨ packed_value undef self timestamp ≠ self.last_value
  · rw [if_pos hc]
    exact ⟨rfl, fun _ => ⟨rfl, rfl, rfl⟩, fun h => absurd hc h⟩
  · rw [if_neg hc]
    exact ⟨rfl, fun h => absurd h hc, fun _ => ⟨rfl, rfl⟩⟩

/-- Instance of C7: a binding without channels and `last_value = 0`, synced at
time `5` with `last_sync = 0`, returns `TRUE`. -/
theorem sync_values_state_update_witness :
    (gst_control_binding_argb_sync_values 0 (color_binding none none none none 0)
      uint_object 5 0).1 = true :=
  (sync_values_state_update 0 (color_binding none none none none 0) uint_object 5 0
    rfl rfl).1

/-- C8: first publish.  The binding `zero_alpha_binding`, made by
`gst_control_binding_argb_new` with an alpha provider of constant sample `0.0`
and no other provider, starts with `last_value = 0`; its first `sync_values`
call, at time `0` with `last_sync = 0`, succeeds with the packed value
`0x00000000` and writes nothing to the target property. -/
theorem first_sync_of_zero_writes_nothing (undef : Nat) :
    zero_alpha_binding.last_value = 0 ∧
    channels_ok zero_alpha_binding 0 = true ∧
    packed_value undef zero_alpha_binding 0 = 0 ∧
    gst_control_binding_argb_sync_values undef zero_alpha_binding uint_object 0 0 =
      (true, zero_alpha_binding, uint_object) := by
  have hp : zero_alpha_binding.pspec.isSome = true := rfl
  have hok : channels_ok zero_alpha_binding 0 = true := rfl
  have hv : packed_value undef zero_alpha_binding 0 = 0 := by
    show src_val undef (GDouble.fin 0) (GDouble.fin 0) (GDouble.fin 0) (GDouble.fin 0) = 0
    rw [src_val_fin, quantize_zero]
    rfl
  have hl : zero_alpha_binding.last_value = 0 := rfl
  refine ⟨hl, hok, hv, ?_⟩
  rw [sync_values_eq undef zero_alpha_binding uint_object 0 0 hp, if_pos hok, hv, hl]
  exact if_neg (by
    intro h
    rcases h with h | h
    · exact absurd h (by decide)
    · exact h rfl)

/-- C9: change suppression.  On a binding with a bound property whose
`last_value` differs from `v`, two consecutive `sync_values` calls, each with
`timestamp >= last_sync`, all present channels succeeding and the packed value
`v`, give exactly one property write: the first call writes `v` and stores it,
the second call writes nothing and leaves the instance and the target as the
first call left them. -/
theorem sync_values_change_suppression (undef : Nat) (self : GstControlBindingARGB)
    (object : GstObject) (t1 ls1 t2 ls2 v : Nat)
    (hp : self.pspec.isSome = true)
    (hok1 : channels_ok self t1 = true) (hok2 : channels_ok self t2 = true)
    (hv1 : packed_value undef self t1 = v) (hv2 : packed_value undef self t2 = v)
    (hne : self.last_value ≠ v) (_h1 : ls1 ≤ t1) (h2 : ls2 ≤ t2) :
    gst_control_binding_argb_sync_values undef self object t1 ls1 =
        (true, { self with cur_value := GValue.uint v, last_value := v },
          g_object_set_property object self.name (GValue.uint v)) ∧
      gst_control_binding_argb_sync_values undef
          (gst_control_binding_argb_sync_values undef self object t1 ls1).2.1
          (gst_control_binding_argb_sync_values undef self object t1 ls1).2.2 t2 ls2 =
        (true, (gst_control_binding_argb_sync_values undef self object t1 ls1).2.1,
          (gst_control_binding_argb_sync_values undef self object t1 ls1).2.2) ∧
      (gst_control_binding_argb_sync_values undef
          (gst_control_binding_argb_sync_values undef self object t1 ls1).2.1
          (gst_control_binding_argb_sync_values undef self object t1 ls1).2.2 t2 ls2).2.2.writes =
        object.writes ++ [(self.name, GValue.uint v)] := by
  have hfirst : gst_control_binding_argb_sync_values undef self object t1 ls1 =
      (true, { self with cur_value := GValue.uint v, last_value := v },
        g_object_set_property object self.name (GValue.uint v)) := by
    rw [sync_values_eq undef self object t1 ls1 hp, if_pos hok1, hv1,
      if_pos (Or.inr (Ne.symm hne))]
  have hsecond : gst_control_binding_argb_sync_values undef
      { self with cur_value := GValue.uint v, last_value := v }
      (g_object_set_property object self.name (GValue.uint v)) t2 ls2 =
      (true, { self with cur_value := GValue.uint v, last_value := v },
        g_object_set_property object self.name (GValue.uint v)) := by
    have hok2' : channels_ok { self with cur_value := GValue.uint v, last_value := v } t2 =
        true := hok2
    have hv2' : packed_value undef { self with cur_value := GValue.uint v, last_value := v }
        t2 = v := hv2
    have hp' : ({ self with cur_value := GValue.uint v, last_value := v } :
        GstControlBindingARGB).pspec.isSome = true := hp
    rw [sync_values_eq undef { self with cur_value := GValue.uint v, last_value := v } _
      t2 ls2 hp', if_pos hok2', hv2']
    exact if_neg (by
      intro h
      rcases h with h | h
      · omega
      · exact h rfl)
  rw [hfirst]
  refine ⟨rfl, hsecond, ?_⟩
  rw [hsecond]
  rfl

/-- Instance of C9: a binding without channels and `last_value = 0` is synced at
times `5` and `6` with `last_sync = 0` and `5`; the packed value is `0xFF000000`
both times and the target receives one write. -/
theorem sync_values_change_suppression_witness :
    (gst_control_binding_argb_sync_values 0
        (gst_control_binding_argb_sync_values 0 (color_binding none none none none 0)
          uint_object 5 0).2.1
        (gst_control_binding_argb_sync_values 0 (color_binding none none none none 0)
          uint_object 5 0).2.2 6 5).2.2.writes =
      uint_object.writes ++
        [((color_binding none none none none 0).name, GValue.uint 0xFF000000)] :=
  (sync_values_change_suppression 0 (color_binding none none none none 0) uint_object
    5 0 6 5 0xFF000000 rfl rfl rfl (src_val_default 0) (src_val_default 0) (by decide)
    (by decide) (by decide)).2.2

/-- C10: default channels.  On a binding with a bound property and all four
slots absent, `get_value` returns `0xFF000000` at every valid timestamp, and
`get_value_array`, for every valid start and interval and every count `n`,
reports success and sets exactly the entries `0 .. n - 1`, each to `0xFF000000`. -/
theorem default_channels_value (undef : Nat) (self : GstControlBindingARGB)
    (timestamp interval n_values : Nat) (vals : Nat → GValue)
    (ha : self.cs_a = none) (hr : self.cs_r = none) (hg : self.cs_g = none)
    (hb : self.cs_b = none) (hp : self.pspec.isSome = true)
    (ht : GST_CLOCK_TIME_IS_VALID timestamp = true)
    (hi : GST_CLOCK_TIME_IS_VALID interval = true) :
    gst_control_binding_argb_get_value undef self timestamp = some 0xFF000000 ∧
      gst_control_binding_argb_get_value_array undef self timestamp interval n_values
          (some vals) =
        (true, some (fun j => if j < n_values then GValue.uint 0xFF000000 else vals j)) := by
  have hpk : pack (quantize 1) (quantize 0) (quantize 0) (quantize 0) = 0xFF000000 := by
    rw [quantize_one, quantize_zero]; rfl
  constructor
  · rw [get_value_of_samples undef self timestamp 1 0 0 0 ht hp (by rw [ha]; rfl)
      (by rw [hr]; rfl) (by rw [hg]; rfl) (by rw [hb]; rfl), hpk]
  · rw [get_value_array_success undef self timestamp interval n_values vals
      (fun _ => GDouble.fin 1) (fun _ => GDouble.fin 0) (fun _ => GDouble.fin 0)
      (fun _ => GDouble.fin 0) ht hi hp (by rw [ha]; rfl) (by rw [hr]; rfl)
      (by rw [hg]; rfl) (by rw [hb]; rfl)]
    simp only [sample_byte, hpk]

/-- Instance of C10: start `0`, interval `10`, count `3` fills the entries `0`,
`1`, `2` with `0xFF000000`. -/
theorem default_channels_value_witness :
    gst_control_binding_argb_get_value_array 0 (color_binding none none none none 0) 0 10 3
        (some (fun _ => GValue.unset)) =
      (true, some (fun j => if j < 3 then GValue.uint 0xFF000000 else GValue.unset)) :=
  (default_channels_value 0 (color_binding none none none none 0) 0 10 3
    (fun _ => GValue.unset) rfl rfl rfl rfl rfl rfl rfl).2

/-- C11: element-wise result of `get_value_array`.  For a valid start and
interval, on a binding with a bound property, when the batch call of every
present channel succeeds with the numbers `xa i`, `xr i`, `xg i`, `xb i` at
index `i` (the channel default for an absent channel), the call reports success
and sets exactly the entries `0 .. n - 1`, entry `i` to
`(qa << 24) | (qr << 16) | (qg << 8) | qb` with `q = floor (clamp (x i, 0, 1) * 255)`;
and when the slots' point samples at the valid time `start + i * interval` are
these same numbers, `get_value` at that time returns the word of entry `i`. -/
theorem get_value_array_elementwise (undef : Nat) (self : GstControlBindingARGB)
    (timestamp interval n_values : Nat) (vals : Nat → GValue) (xa xr xg xb : Nat → ℚ)
    (ht : GST_CLOCK_TIME_IS_VALID timestamp = true)
    (hi : GST_CLOCK_TIME_IS_VALID interval = true)
    (hp : self.pspec.isSome = true)
    (ha : batch_samples self.cs_a timestamp interval n_values 1 xa)
    (hr : batch_samples self.cs_r timestamp interval n_values 0 xr)
    (hg : batch_samples self.cs_g timestamp interval n_values 0 xg)
    (hb : batch_samples self.cs_b timestamp interval n_values 0 xb) :
    gst_control_binding_argb_get_value_array undef self timestamp interval n_values
        (some vals) =
      (true, some (fun j =>
        if j < n_values then
          GValue.uint (pack (quantize (xa j)) (quantize (xr j)) (quantize (xg j))
            (quantize (xb j)))
        else vals j)) ∧
    ∀ i, i < n_values → GST_CLOCK_TIME_IS_VALID (timestamp + i * interval) = true →
      slot_sample self.cs_a (timestamp + i * interval) 1 (xa i) →
      slot_sample self.cs_r (timestamp + i * interval) 0 (xr i) →
      slot_sample self.cs_g (timestamp + i * interval) 0 (xg i) →
      slot_sample self.cs_b (timestamp + i * interval) 0 (xb i) →
      gst_control_binding_argb_get_value undef self (timestamp + i * interval) =
        some (pack (quantize (xa i)) (quantize (xr i)) (quantize (xg i)) (quantize (xb i))) := by
  obtain ⟨a, hba, hqa⟩ := batch_samples_buffer _ _ _ _ _ _ ha
  obtain ⟨r, hbr, hqr⟩ := batch_samples_buffer _ _ _ _ _ _ hr
  obtain ⟨g, hbg, hqg⟩ := batch_samples_buffer _ _ _ _ _ _ hg
  obtain ⟨b, hbb, hqb⟩ := batch_samples_buffer _ _ _ _ _ _ hb
  have hfun : (fun j =>
      if j < n_values then
        GValue.uint (pack (sample_byte (a j) 1) (sample_byte (r j) 0)
          (sample_byte (g j) 0) (sample_byte (b j) 0))
      else vals j) =
      (fun j =>
        if j < n_values then
          GValue.uint (pack (quantize (xa j)) (quantize (xr j)) (quantize (xg j))
            (quantize (xb j)))
        else vals j) := by
    funext j
    by_cases hj : j < n_values
    · rw [if_pos hj, if_pos hj, hqa j hj, hqr j hj, hqg j hj, hqb j hj]
    · rw [if_neg hj, if_neg hj]
  refine ⟨?_, ?_⟩
  · rw [get_value_array_success undef self timestamp interval n_values vals a r g b ht hi hp
      hba hbr hbg hbb, hfun]
  · intro i _ hti sa sr sg sb
    exact get_value_of_samples undef self (timestamp + i * interval) (xa i) (xr i) (xg i)
      (xb i) hti hp sa sr sg sb

/-- Instance of C11: only the red slot present, with batch samples `0.5`; start
`0`, interval `10`, count `3` gives `0xFF7F0000` in the entries `0`, `1`, `2`. -/
theorem get_value_array_elementwise_witness :
    gst_control_binding_argb_get_value_array 0
        (color_binding none (some (const_source (GDouble.fin (1 / 2)))) none none 0) 0 10 3
        (some (fun _ => GValue.unset)) =
      (true, some (fun j => if j < 3 then GValue.uint 0xFF7F0000 else GValue.unset)) := by
  have h := (get_value_array_elementwise 0
    (color_binding none (some (const_source (GDouble.fin (1 / 2)))) none none 0) 0 10 3
    (fun _ => GValue.unset) (fun _ => 1) (fun _ => 1 / 2) (fun _ => 0) (fun _ => 0)
    rfl rfl rfl (fun _ _ => rfl) ⟨fun _ => GDouble.fin (1 / 2), rfl, fun _ _ => rfl⟩
    (fun _ _ => rfl) (fun _ _ => rfl)).1
  rw [quantize_one, quantize_half, quantize_zero] at h
  exact h

/-- C12: not-a-number inside a batch.  For a valid start and interval, on a
binding with a bound property, when the batch call of every present channel
succeeds with the buffers `a`, `r`, `g`, `b` (the constant default for an absent
channel), the call reports success and entry `j` packs, for each channel, the
byte of that channel's sample at `j`: the quantised sample when it is a number,
and the byte of the channel default (`255` for alpha, `0` for red, green, blue)
when it is not-a-number; no other index and no other channel enters entry `j`. -/
theorem get_value_array_nan_sample (undef : Nat) (self : GstControlBindingARGB)
    (timestamp interval n_values : Nat) (vals : Nat → GValue) (a r g b : Nat → GDouble)
    (ht : GST_CLOCK_TIME_IS_VALID timestamp = true)
    (hi : GST_CLOCK_TIME_IS_VALID interval = true)
    (hp : self.pspec.isSome = true)
    (ha : batch_buffer self.cs_a timestamp interval n_values 1 a)
    (hr : batch_buffer self.cs_r timestamp interval n_values 0 r)
    (hg : batch_buffer self.cs_g timestamp interval n_values 0 g)
    (hb : batch_buffer self.cs_b timestamp interval n_values 0 b) :
    gst_control_binding_argb_get_value_array undef self timestamp interval n_values
        (some vals) =
      (true, some (fun j =>
        if j < n_values then
          GValue.uint (pack (sample_byte (a j) 1) (sample_byte (r j) 0)
            (sample_byte (g j) 0) (sample_byte (b j) 0))
        else vals j)) ∧
    sample_byte GDouble.nan 1 = 255 ∧ sample_byte GDouble.nan 0 = 0 ∧
    ∀ (q dflt : ℚ), sample_byte (GDouble.fin q) dflt = quantize q :=
  ⟨get_value_array_success undef self timestamp interval n_values vals a r g b ht hi hp
      ha hr hg hb,
    quantize_one, quantize_zero, fun _ _ => rfl⟩

/-- Instance of C12: the alpha provider's buffer holds not-a-number at index `1`
and `0.5` elsewhere, no other slot is present; start `0`, interval `10`, count
`3` reports success, and entry `j` has the alpha byte of the sample at `j`. -/
theorem get_value_array_nan_sample_witness :
    gst_control_binding_argb_get_value_array 0
        (color_binding (some (nan_at_one_source (GDouble.fin (1 / 2)))) none none none 0)
        0 10 3 (some (fun _ => GValue.unset)) =
      (true, some (fun j =>
        if j < 3 then
          GValue.uint (pack
            (sample_byte (if j = 1 then GDouble.nan else GDouble.fin (1 / 2)) 1)
            (sample_byte (GDouble.fin 0) 0) (sample_byte (GDouble.fin 0) 0)
            (sample_byte (GDouble.fin 0) 0))
        else GValue.unset)) :=
  (get_value_array_nan_sample 0
    (color_binding (some (nan_at_one_source (GDouble.fin (1 / 2)))) none none none 0)
    0 10 3 (fun _ => GValue.unset)
    (fun j => if j = 1 then GDouble.nan else GDouble.fin (1 / 2))
    (fun _ => GDouble.fin 0) (fun _ => GDouble.fin 0) (fun _ => GDouble.fin 0)
    rfl rfl rfl rfl rfl rfl rfl).1

/-- C13: aggregate batch failure.  On a binding with at least one present
channel, if the batch call of every present channel fails, `get_value_array`
reports failure (`FALSE`) and leaves the output array as it was: no entry is
initialised or written. -/
theorem get_value_array_aggregate_failure (undef : Nat) (self : GstControlBindingARGB)
    (timestamp interval n_values : Nat) (values : Option (Nat → GValue))
    (hsome : self.cs_a.isSome = true ∨ self.cs_r.isSome = true ∨ self.cs_g.isSome = true ∨
      self.cs_b.isSome = true)
    (ha : self.cs_a.isSome = true → batch_ok self.cs_a timestamp interval n_values = false)
    (hr : self.cs_r.isSome = true → batch_ok self.cs_r timestamp interval n_values = false)
    (hg : self.cs_g.isSome = true → batch_ok self.cs_g timestamp interval n_values = false)
    (hb : self.cs_b.isSome = true → batch_ok self.cs_b timestamp interval n_values = false) :
    gst_control_binding_argb_get_value_array undef self timestamp interval n_values values =
      (false, values) := by
  apply get_value_array_failure
  apply batches_ok_false
  rcases hsome with h | h | h | h
  · exact Or.inl (ha h)
  · exact Or.inr (Or.inl (hr h))
  · exact Or.inr (Or.inr (Or.inl (hg h)))
  · exact Or.inr (Or.inr (Or.inr (hb h)))

/-- Instance of C13: the red and the blue slot are present and both batch calls
fail; the call reports `FALSE` and the array is as it was. -/
theorem get_value_array_aggregate_failure_witness :
    gst_control_binding_argb_get_value_array 0
        (color_binding none (some failing_source) none (some failing_source) 0) 0 10 3
        (some (fun _ => GValue.unset)) =
      (false, some (fun _ => GValue.unset)) :=
  get_value_array_aggregate_failure 0
    (color_binding none (some failing_source) none (some failing_source) 0) 0 10 3
    (some (fun _ => GValue.unset)) (Or.inr (Or.inl rfl)) (fun h => absurd h (by decide))
    (fun _ => rfl) (fun h => absurd h (by decide)) (fun _ => rfl)

/-- C14: not-a-number on the single-value path.  `get_value` and `sync_values`
pass a not-a-number sample through `CLAMP` and the product to the conversion to
`guint`, which C leaves undefined (`undef` is what it yields): with the sample in
the alpha slot the word has `undef` in the alpha byte, with the sample in the red
slot it has `undef` in the red byte, and `sync_values` publishes that word.  No
value of the conversion gives the default byte in both (`255` for alpha, `0` for
red), whereas `get_value_array` on the same binding yields the default
`0xFF000000`. -/
theorem nan_on_single_value_path (undef : Nat) :
    gst_control_binding_argb_get_value undef nan_alpha_binding 100 =
        some (pack_guint (undef % 2 ^ 32) 0 0 0) ∧
    gst_control_binding_argb_get_value undef nan_red_binding 100 =
        some (pack_guint 255 (undef % 2 ^ 32) 0 0) ∧
    ¬ (gst_control_binding_argb_get_value undef nan_alpha_binding 100 = some 0xFF000000 ∧
        gst_control_binding_argb_get_value undef nan_red_binding 100 = some 0xFF000000) ∧
    (gst_control_binding_argb_sync_values undef nan_alpha_binding uint_object 100 200).2.2.writes =
        [("color", GValue.uint (pack_guint (undef % 2 ^ 32) 0 0 0))] ∧
    gst_control_binding_argb_get_value_array undef nan_alpha_binding 100 10 1
        (some (fun _ => GValue.unset)) =
      (true, some (fun j => if j < 1 then GValue.uint 0xFF000000 else GValue.unset)) := by
  have hpa : packed_value undef nan_alpha_binding 100 = pack_guint (undef % 2 ^ 32) 0 0 0 := by
    show src_val undef GDouble.nan (GDouble.fin 0) (GDouble.fin 0) (GDouble.fin 0) = _
    rw [src_val_eq_pack_guint, channel_byte_nan, channel_byte_fin, quantize_zero]
  have hpr : packed_value undef nan_red_binding 100 = pack_guint 255 (undef % 2 ^ 32) 0 0 := by
    show src_val undef (GDouble.fin 1) GDouble.nan (GDouble.fin 0) (GDouble.fin 0) = _
    rw [src_val_eq_pack_guint, channel_byte_nan, channel_byte_fin, channel_byte_fin,
      quantize_zero, quantize_one]
  have hga : gst_control_binding_argb_get_value undef nan_alpha_binding 100 =
      some (pack_guint (undef % 2 ^ 32) 0 0 0) := by
    have hok : channels_ok nan_alpha_binding 100 = true := rfl
    rw [get_value_eq undef nan_alpha_binding 100 rfl rfl, if_pos hok, hpa]
  have hgr : gst_control_binding_argb_get_value undef nan_red_binding 100 =
      some (pack_guint 255 (undef % 2 ^ 32) 0 0) := by
    have hok : channels_ok nan_red_binding 100 = true := rfl
    rw [get_value_eq undef nan_red_binding 100 rfl rfl, if_pos hok, hpr]
  refine ⟨hga, hgr, ?_, ?_, ?_⟩
  · rw [hga, hgr]
    intro h
    have h1 : pack_guint (undef % 2 ^ 32) 0 0 0 = 0xFF000000 := Option.some.inj h.1
    have h2 : pack_guint 255 (undef % 2 ^ 32) 0 0 = 0xFF000000 := Option.some.inj h.2
    exact pack_guint_nan_red _ (pack_guint_nan_alpha _ h1) h2
  · have hok : channels_ok nan_alpha_binding 100 = true := rfl
    have hc : 100 < 200 ∨ packed_value undef nan_alpha_binding 100 ≠
        nan_alpha_binding.last_value := Or.inl (by decide)
    rw [sync_values_eq undef nan_alpha_binding uint_object 100 200 rfl, if_pos hok,
      if_pos hc, hpa]
    rfl
  · have h := get_value_array_success undef nan_alpha_binding 100 10 1
      (fun _ => GValue.unset) (fun _ => GDouble.nan) (fun _ => GDouble.fin 0)
      (fun _ => GDouble.fin 0) (fun _ => GDouble.fin 0) rfl rfl rfl rfl rfl rfl rfl
    simp only [sample_byte, quantize_one, quantize_zero] at h
    exact h

/-- C15: packing round-trip.  For bytes `a`, `r`, `g`, `b` in `0 .. 255`, the
word the code packs, `(a << 24) | (r << 16) | (g << 8) | b` on 32 bits, is below
`2 ^ 32`, and its bits 31-24, 23-16, 15-8 and 7-0 are `a`, `r`, `g` and `b`. -/
theorem pack_round_trip (a r g b : Nat) (ha : a ≤ 255) (hr : r ≤ 255) (hg : g ≤ 255)
    (hb : b ≤ 255) :
    pack_guint a r g b < 2 ^ 32 ∧
      byte_at (pack_guint a r g b) 24 = a ∧ byte_at (pack_guint a r g b) 16 = r ∧
      byte_at (pack_guint a r g b) 8 = g ∧ byte_at (pack_guint a r g b) 0 = b := by
  rw [pack_guint_sum a r g b ha hr hg hb]
  unfold byte_at
  simp only [Nat.shiftRight_eq_div_pow]
  refine ⟨?_, ?_, ?_, ?_, ?_⟩ <;> omega

/-- Instance of C15: the bytes `255`, `127`, `0`, `1` pack to a word whose four
bytes are `255`, `127`, `0`, `1`. -/
theorem pack_round_trip_witness :
    pack_guint 255 127 0 1 < 2 ^ 32 ∧
      byte_at (pack_guint 255 127 0 1) 24 = 255 ∧ byte_at (pack_guint 255 127 0 1) 16 = 127 ∧
      byte_at (pack_guint 255 127 0 1) 8 = 0 ∧ byte_at (pack_guint 255 127 0 1) 0 = 1 :=
  pack_round_trip 255 127 0 1 (by decide) (by decide) (by decide) (by decide)

/-- C16: the quantisation is monotone and bounded.  On an exact sample `x` the
byte the code computes, `(guint) (CLAMP (x, 0.0, 1.0) * 255)`, is
`floor (clamp (x, 0, 1) * 255)`, lies in `0 .. 255`, does not decrease when the
sample grows, is `0` for samples up to `0` and `255` for samples from `1` on. -/
theorem channel_byte_monotone_bounded (undef : Nat) (x y : ℚ) :
    channel_byte undef (GDouble.fin x) = Int.toNat ⌊max 0 (min x 1) * 255⌋ ∧
      0 ≤ channel_byte undef (GDouble.fin x) ∧ channel_byte undef (GDouble.fin x) ≤ 255 ∧
      (x ≤ y → channel_byte undef (GDouble.fin x) ≤ channel_byte undef (GDouble.fin y)) ∧
      (x ≤ 0 → channel_byte undef (GDouble.fin x) = 0) ∧
      (1 ≤ x → channel_byte undef (GDouble.fin x) = 255) := by
  rw [channel_byte_fin, channel_byte_fin]
  refine ⟨rfl, Nat.zero_le _, quantize_le x, ?_, ?_, ?_⟩
  · intro hxy
    unfold quantize
    apply Int.toNat_le_toNat
    apply Int.floor_le_floor
    have hm : max 0 (min x 1) ≤ max 0 (min y 1) := max_le_max (le_refl 0) (min_le_min hxy (le_refl 1))
    nlinarith
  · intro hx
    have hm : max 0 (min x 1) = 0 := max_eq_left ((min_le_left x 1).trans hx)
    unfold quantize
    rw [hm]
    simp
  · intro hx
    have hm : max 0 (min x 1) = 1 := by
      rw [min_eq_right hx]
      exact max_eq_right (by norm_num)
    unfold quantize
    rw [hm]
    norm_num
    rfl

/-- C17: `get_value` is a pure read.  For every instance, target object and
timestamp (valid or not), whether the call returns a value or `NULL`, it leaves every
field of the instance (with `last_value`) and the target object as they were;
its result depends on neither `last_value` nor the stored current value; and a
`get_value` call between two `sync_values` calls changes nothing of what the
second one returns, stores or publishes. -/
theorem get_value_pure_read (undef : Nat) (self : GstControlBindingARGB) (object : GstObject)
    (timestamp : Nat) (first second : Call) (l : Nat) (c : GValue) :
    call_step undef (self, object) (Call.get_value timestamp) = (self, object) ∧
      gst_control_binding_argb_get_value undef { self with cur_value := c, last_value := l }
          timestamp =
        gst_control_binding_argb_get_value undef self timestamp ∧
      run_calls undef (self, object) [first, Call.get_value timestamp, second] =
        run_calls undef (self, object) [first, second] :=
  ⟨rfl, rfl, rfl⟩

/-- C18: incompatible property.  When the property found on the object has a
value type other than `guint`, the binding made by
`gst_control_binding_argb_new` has no property spec, and on it, whatever the
providers and the arguments are, `sync_values` returns `FALSE` leaving the
instance and the target as they were, `get_value` returns `NULL`, and
`get_value_array` returns `FALSE` leaving the output array as it was. -/
theorem incompatible_property_fails (undef : Nat) (object target : GstObject)
    (property_name : String) (cs_a cs_r cs_g cs_b : Option GstControlSource)
    (p : GParamSpec) (timestamp last_sync interval n_values : Nat)
    (values : Option (Nat → GValue))
    (hfind : object.find_property property_name = some p)
    (hty : p.value_type ≠ GType.G_TYPE_UINT) :
    (gst_control_binding_argb_new object property_name cs_a cs_r cs_g cs_b).pspec = none ∧
      gst_control_binding_argb_sync_values undef
          (gst_control_binding_argb_new object property_name cs_a cs_r cs_g cs_b) target
          timestamp last_sync =
        (false, gst_control_binding_argb_new object property_name cs_a cs_r cs_g cs_b,
          target) ∧
      gst_control_binding_argb_get_value undef
          (gst_control_binding_argb_new object property_name cs_a cs_r cs_g cs_b)
          timestamp = none ∧
      gst_control_binding_argb_get_value_array undef
          (gst_control_binding_argb_new object property_name cs_a cs_r cs_g cs_b)
          timestamp interval n_values values = (false, values) := by
  have hp := new_pspec_incompatible object property_name cs_a cs_r cs_g cs_b p hfind hty
  exact ⟨hp, sync_values_no_pspec undef _ target timestamp last_sync hp,
    get_value_no_pspec undef _ timestamp hp,
    get_value_array_no_pspec undef _ timestamp interval n_values values hp⟩

/-- Instance of C18: a binding to a property of another type, with an alpha
provider of constant sample `1.0`; `get_value` at time `100` returns `NULL`. -/
theorem incompatible_property_fails_witness :
    gst_control_binding_argb_get_value 0
        (gst_control_binding_argb_new float_object "color"
          (some (const_source (GDouble.fin 1))) none none none) 100 = none :=
  (incompatible_property_fails 0 float_object uint_object "color"
    (some (const_source (GDouble.fin 1))) none none none { value_type := GType.other 0 }
    100 0 10 3 none rfl (by decide)).2.2.1

/-- C19: `sync_values` and `get_value` compute the same value.  For every
instance and valid timestamp, `sync_values` returns `TRUE` exactly when
`get_value` returns a value; and when `get_value` returns the word `v`,
`sync_values` compares `v` with `last_value`: it stores and publishes `v` when
`timestamp < last_sync` or `v` differs from `last_value`, and otherwise leaves
the instance and the target as they were. -/
theorem sync_values_agrees_with_get_value (undef : Nat) (self : GstControlBindingARGB)
    (object : GstObject) (timestamp last_sync : Nat)
    (ht : GST_CLOCK_TIME_IS_VALID timestamp = true) :
    (gst_control_binding_argb_sync_values undef self object timestamp last_sync).1 =
        (gst_control_binding_argb_get_value undef self timestamp).isSome ∧
      ∀ v, gst_control_binding_argb_get_value undef self timestamp = some v →
        gst_control_binding_argb_sync_values undef self object timestamp last_sync =
          if timestamp < last_sync ∨ v ≠ self.last_value then
            (true, { self with cur_value := GValue.uint v, last_value := v },
              g_object_set_property object self.name (GValue.uint v))
          else (true, self, object) := by
  have hcase : self.pspec = none ∨ self.pspec.isSome = true := by
    cases self.pspec with
    | none => exact Or.inl rfl
    | some _ => exact Or.inr rfl
  rcases hcase with hps | hp
  · rw [sync_values_no_pspec undef self object timestamp last_sync hps,
      get_value_no_pspec undef self timestamp hps]
    exact ⟨rfl, fun v hv => absurd hv (by simp)⟩
  · rw [sync_values_eq undef self object timestamp last_sync hp,
      get_value_eq undef self timestamp ht hp]
    by_cases hok : channels_ok self timestamp = true
    · rw [if_pos hok, if_pos hok]
      refine ⟨?_, ?_⟩
      · by_cases hc : timestamp < last_sync ∨
            packed_value undef self timestamp ≠ self.last_value
        · rw [if_pos hc]; rfl
        · rw [if_neg hc]; rfl
      · intro v hv
        rw [Option.some.inj hv]
    · rw [if_neg hok, if_neg hok]
      exact ⟨rfl, fun v hv => absurd hv (by simp)⟩

/-- Instance of C19: on a binding without channels, at time `100`, `sync_values`
returns `TRUE` as `get_value` returns a value. -/
theorem sync_values_agrees_with_get_value_witness :
    (gst_control_binding_argb_sync_values 0 (color_binding none none none none 0) uint_object
        100 0).1 =
      (gst_control_binding_argb_get_value 0 (color_binding none none none none 0) 100).isSome :=
  (sync_values_agrees_with_get_value 0 (color_binding none none none none 0) uint_object
    100 0 rfl).1

/-- C20: reachable-state invariant of `last_value`.  In every state reached from
the binding made by `gst_control_binding_argb_new` by a sequence of
`sync_values`, `get_value` and `get_value_array` calls, the target's log is the
initial log followed by the writes of the binding, and `last_value` is the word
of the last of these writes, or `0` when there is none; and right after any
`sync_values` call that returns `TRUE` from such a state, `last_value` is the
packed value of that call. -/
theorem last_value_invariant (undef : Nat) (object : GstObject) (property_name : String)
    (cs_a cs_r cs_g cs_b : Option GstControlSource) (calls : List Call) :
    (∃ ws,
      (run_calls undef
          (gst_control_binding_argb_new object property_name cs_a cs_r cs_g cs_b, object)
          calls).2.writes = object.writes ++ ws ∧
      (run_calls undef
          (gst_control_binding_argb_new object property_name cs_a cs_r cs_g cs_b, object)
          calls).1.last_value = last_written ws) ∧
    ∀ timestamp last_sync,
      (gst_control_binding_argb_sync_values undef
          (run_calls undef
            (gst_control_binding_argb_new object property_name cs_a cs_r cs_g cs_b, object)
            calls).1
          (run_calls undef
            (gst_control_binding_argb_new object property_name cs_a cs_r cs_g cs_b, object)
            calls).2 timestamp last_sync).1 = true →
      (gst_control_binding_argb_sync_values undef
          (run_calls undef
            (gst_control_binding_argb_new object property_name cs_a cs_r cs_g cs_b, object)
            calls).1
          (run_calls undef
            (gst_control_binding_argb_new object property_name cs_a cs_r cs_g cs_b, object)
            calls).2 timestamp last_sync).2.1.last_value =
        packed_value undef
          (run_calls undef
            (gst_control_binding_argb_new object property_name cs_a cs_r cs_g cs_b, object)
            calls).1 timestamp := by
  refine ⟨?_, fun timestamp last_sync h =>
    sync_values_success_last_value undef _ _ timestamp last_sync h⟩
  apply run_calls_invariant
  refine ⟨[], (List.append_nil _).symm, ?_⟩
  show (gst_control_binding_argb_new object property_name cs_a cs_r cs_g cs_b).last_value = 0
  unfold gst_control_binding_argb_new
  rw [(constructor_slots _).2.2.2.2.1]
  rfl

end ARGB
